import Mathlib

/-!
Verification of the nixpacks build-plan compiler and Dockerfile synthesizer.

The development shallowly embeds the provider helpers (`src/providers/clojure.rs`,
`src/providers/java.rs`), the Dockerfile synthesizer
(`src/nixpacks/builder/docker.rs`) and its utility module
(`src/nixpacks/builder/docker/utils.rs`), together with the start-command gate
of `src/lib.rs`. External collaborators whose sources are not part of the
examined set (the source-tree abstraction, the configuration overlay, the cache
key sanitizer) are modelled from the specification and say so in their doc
comments.
-/

namespace Nixpacks

/-! ## List/String helpers (structural, kernel-evaluable) -/

/-- Split a character list at every occurrence of `sep` (the separator is
dropped; `n` separators give `n+1` pieces). -/
def splitOnCharAux (sep : Char) : List Char → List Char → List (List Char)
  | [], acc => [acc.reverse]
  | c :: rest, acc =>
    if c == sep then acc.reverse :: splitOnCharAux sep rest []
    else splitOnCharAux sep rest (c :: acc)

/-- The lines of a string (split at every newline character). -/
def splitLines (s : String) : List String :=
  (splitOnCharAux '\n' s.data []).map String.mk

/-- `p` is a prefix of `s`, on the underlying character lists. -/
def strIsPrefixOf (p s : String) : Bool :=
  p.data.isPrefixOf s.data

/-- `pat` occurs as a contiguous subsequence of `l`. -/
def listContainsSeq (pat : List Char) : List Char → Bool
  | [] => pat.isEmpty
  | c :: rest => pat.isPrefixOf (c :: rest) || listContainsSeq pat rest

/-- `pat` occurs as a substring of `s`. -/
def containsSubstring (s pat : String) : Bool :=
  listContainsSeq pat.data s.data

/-- Rust `str::trim`: drop leading and trailing whitespace (the inputs the
claims exercise are ASCII, where Rust's Unicode whitespace and
`Char.isWhitespace` agree). -/
def rustTrim (s : String) : String :=
  String.mk (((s.data.dropWhile Char.isWhitespace).reverse.dropWhile
    Char.isWhitespace).reverse)

/-- Rust `str::replace('~', "/root")` as used on cache directories. -/
def replaceTilde (s : String) : String :=
  String.join (s.data.map (fun c => if c == '~' then "/root" else String.mk [c]))

/-- Rust `str::replace("./", repl)`: leftmost, non-overlapping occurrences of
`./` are replaced by `repl`. -/
def replaceDotSlash (repl : String) : List Char → List Char
  | '.' :: '/' :: rest => repl.data ++ replaceDotSlash repl rest
  | c :: rest => c :: replaceDotSlash repl rest
  | [] => []

/-- String wrapper for `replaceDotSlash`. -/
def strReplaceDotSlash (repl s : String) : String :=
  String.mk (replaceDotSlash repl s.data)

/-! ## Data model

The `Phase`/`BuildPlan` record declarations live in `src/nixpacks/phase.rs` /
`plan.rs`, which are not among the examined source files; the fields below are
exactly the ones `docker.rs`, `lib.rs` and the providers read, with the
`Default` values Rust's `derive(Default)` assigns (`None` for options, the
empty string for strings). `variables` and `static_assets` are `BTreeMap`s in
the source (iterated in key order); they are modelled as association lists in
iteration order. -/

/-- Modelled from the spec: `Package` (`src/nixpacks/nix/pkg.rs` is not among
the examined files) — "a named OS/language package with an optional version
pin"; the providers here only use the name constructor `Pkg::new`. -/
structure Pkg where
  name : String
  version : Option String
deriving DecidableEq

/-- `Pkg::new(name)`: a package reference with no version pin. -/
def Pkg.new (name : String) : Pkg := ⟨name, none⟩

/-- Modelled from the spec: the source-tree abstraction (`App`,
`src/nixpacks/app.rs` is not among the examined files) — a root directory with
readable files, here a list of (path, content) pairs. -/
structure App where
  files : List (String × String)

/-- `App::includes_file`: the tree contains a file at `name`. -/
def App.includes_file (app : App) (name : String) : Bool :=
  app.files.any (fun f => f.1 == name)

/-- `App::read_file`: the content of the file at `name`, when present. -/
def App.read_file (app : App) (name : String) : Option String :=
  (app.files.find? (fun f => f.1 == name)).map (fun f => f.2)

/-- Modelled from the spec: the key/value configuration overlay
(`src/nixpacks/environment.rs` is not among the examined files) — explicit
`NIXPACKS_*`-style overrides plus OS environment variables. -/
structure Environment where
  vars : List (String × String)

/-- The value of variable `name`, when set. -/
def Environment.get_variable (env : Environment) (name : String) : Option String :=
  (env.vars.find? (fun v => v.1 == name)).map (fun v => v.2)

/-- `Environment::get_config_variable`: the `NIXPACKS_`-prefixed override. -/
def Environment.get_config_variable (env : Environment) (name : String) : Option String :=
  env.get_variable ("NIXPACKS_" ++ name)

/-- Modelled from the spec: `Environment::is_config_variable_truthy` — the
config variable is set to a truthy value (`"true"` or `"1"`). -/
def Environment.is_config_variable_truthy (env : Environment) (name : String) : Bool :=
  match env.get_config_variable name with
  | some v => v == "true" || v == "1"
  | none => false

/-- The setup phase, as read by `create_dockerfile` (docker.rs 277-296). -/
structure SetupPhase where
  base_image : String := ""
  cmds : Option (List String) := none
  only_include_files : Option (List String) := none
  apt_pkgs : Option (List String) := none
deriving DecidableEq

/-- The install phase, as read by `create_dockerfile` (docker.rs 309-335). -/
structure InstallPhase where
  cmds : Option (List String) := none
  only_include_files : Option (List String) := none
  cache_directories : Option (List String) := none
  paths : Option (List String) := none
deriving DecidableEq

/-- The build phase, as read by `create_dockerfile` (docker.rs 337-355). -/
structure BuildPhase where
  cmds : Option (List String) := none
  only_include_files : Option (List String) := none
  cache_directories : Option (List String) := none
deriving DecidableEq

/-- The start phase, as read by `create_dockerfile` (docker.rs 357-386) and by
the gate in `lib.rs` (`phase.cmd`). `cmd = none` is the "no runnable entry
point detected" state. -/
structure StartPhase where
  cmd : Option String := none
  run_image : Option String := none
  only_include_files : Option (List String) := none
deriving DecidableEq

/-- The Build Plan, as read by `create_dockerfile` (docker.rs 243-248) and
`lib.rs` (start phase). -/
structure BuildPlan where
  setup : Option SetupPhase := none
  install : Option InstallPhase := none
  build : Option BuildPhase := none
  start : Option StartPhase := none
  vars : Option (List (String × String)) := none
  static_assets : Option (List (String × String)) := none
deriving DecidableEq

/-- `DockerBuilderOptions` (docker.rs 49-60). The `no_error_without_start`
override flag is read by `lib.rs` line 98; its declaration sits in a module
version not among the examined files, so that one field is modelled from the
spec ("an explicit override flag accepts this"). -/
structure DockerBuilderOptions where
  name : Option String := none
  out_dir : Option String := none
  print_dockerfile : Bool := false
  tags : List String := []
  labels : List String := []
  quiet : Bool := false
  cache_key : Option String := none
  no_cache : Bool := false
  platform : List String := []
  no_error_without_start : Bool := false
deriving DecidableEq

/-! ## Clojure provider: JDK version inference (src/providers/clojure.rs) -/

/-- `DEFAULT_JDK_PKG_NAME` (clojure.rs line 11). -/
def DEFAULT_JDK_PKG_NAME : String := "jdk8"

/-- The anchored regex `^[0-9][0-9]?$` of clojure.rs line 58: exactly one or
two ASCII digits. -/
def matchesJdkVersionRegex (s : String) : Bool :=
  match s.data with
  | [c] => c.isDigit
  | [c, d] => c.isDigit && d.isDigit
  | _ => false

/-- clojure.rs 43-49: the version resolution priority — config-variable
override first, else the `.jdk-version` file. -/
def resolvedJdkVersion (app : App) (env : Environment) : Option String :=
  match env.get_config_variable "JDK_VERSION" with
  | some v => some v
  | none =>
    if app.includes_file ".jdk-version" then app.read_file ".jdk-version"
    else none

/-- clojure.rs 55-82: trim the resolved string, gate it through the version
regex, and map `"8"`/`"11"`/anything else to a package (parse failure falls
back to the default). -/
def jdkPackageOfVersion (v : String) : Pkg :=
  let t := rustTrim v
  if matchesJdkVersionRegex t then
    if t == "8" then Pkg.new DEFAULT_JDK_PKG_NAME
    else if t == "11" then Pkg.new "jdk11"
    else Pkg.new DEFAULT_JDK_PKG_NAME
  else Pkg.new DEFAULT_JDK_PKG_NAME

/-- `ClojureProvider::get_nix_jdk_package` (clojure.rs 42-83). -/
def get_nix_jdk_package (app : App) (env : Environment) : Pkg :=
  match resolvedJdkVersion app env with
  | none => Pkg.new DEFAULT_JDK_PKG_NAME
  | some v => jdkPackageOfVersion v

/-! ## Java provider: Gradle structural detection (src/providers/java.rs) -/

/-- The error message of java.rs lines 107 and 111. -/
def gradleBuildFileError : String :=
  "Gradle project detected with invalid files, please make sure you have build.gradle or build.gradle.kts at the root of your project directory"

/-- The error message of java.rs line 115. -/
def gradleWrapperPropertiesError : String :=
  "Gradle project detected with invalid files, please make sure you have gradle/wrapper/gradle-wrapper.properties in your project directory"

/-- `GradleHelper::is_gradle_app` (java.rs 100-119): `Ok(false)` without a
`gradlew` wrapper; with one, each missing structural prerequisite is a `bail!`
(the duplicated `settings.gradle || settings.gradle` test of line 110 is kept
as written). -/
def is_gradle_app (app : App) : Except String Bool :=
  if !app.includes_file "gradlew" then Except.ok false
  else if !(app.includes_file "build.gradle" || app.includes_file "build.gradle.kts") then
    Except.error gradleBuildFileError
  else if !(app.includes_file "settings.gradle" || app.includes_file "settings.gradle") then
    Except.error gradleBuildFileError
  else if !app.includes_file "gradle/wrapper/gradle-wrapper.properties" then
    Except.error gradleWrapperPropertiesError
  else Except.ok true

/-! ## Docker build utilities (src/nixpacks/builder/docker/utils.rs, with
module-level duplicates in docker.rs 427-465) -/

/-- Modelled from the spec: the Cache Key Sanitizer (`sanitize_cache_key`,
src/nixpacks/cache.rs / builder/docker/cache.rs are not among the examined
files) — "replace every character that is not alphanumeric or a small
allow-listed punctuation set with `-`"; the allow-list keeps `-` and `_`
(the spec's literal cases: `cache_key-dir1` is already legal,
`my cache key-dir1` becomes `my-cache-key-dir1`). -/
def sanitize_cache_key (key : String) : String :=
  String.mk (key.data.map (fun c =>
    if c.isAlphanum || c == '-' || c == '_' then c else '-'))

/-- `get_cache_mount` (utils.rs 6-25; duplicate at docker.rs 427-440): one
`--mount=type=cache` directive per cache directory, space-joined, with `~`
expanded to `/root` and the id sanitized; the empty string when either the
cache key or the directory list is absent. -/
def get_cache_mount (cache_key : Option String)
    (cache_directories : Option (List String)) : String :=
  match cache_key, cache_directories with
  | some key, some dirs =>
    String.intercalate " " (dirs.map (fun dir =>
      let sanitized_dir := replaceTilde dir
      let sanitized_key := sanitize_cache_key (key ++ "-" ++ sanitized_dir)
      "--mount=type=cache,id=" ++ sanitized_key ++ ",target=" ++ sanitized_dir))
  | _, _ => ""

/-- `get_copy_command` (utils.rs 48-54; duplicate at docker.rs 442-448). -/
def get_copy_command (files : List String) (app_dir : String) : String :=
  if files.isEmpty then ""
  else "COPY " ++ String.intercalate " " files ++ " " ++ app_dir

/-- `get_copy_from_command` (utils.rs 56-71; duplicate at docker.rs 450-465):
the empty-file-list branch hard-codes stage `0`; otherwise each file has `./`
rewritten to the app directory. -/
def get_copy_from_command (frm : String) (files : List String)
    (app_dir : String) : String :=
  if files.isEmpty then
    "COPY --from=0 " ++ app_dir ++ " " ++ app_dir
  else
    "COPY --from=" ++ frm ++ " " ++
      String.intercalate " " (files.map (fun f => strReplaceDotSlash app_dir f)) ++
      " " ++ app_dir

/-- `escapeQuotes`: the character transform of
`command.replace('\"', "\\\"")` (utils.rs line 74) — every double quote gains
a preceding backslash. -/
def escapeQuotes : List Char → List Char
  | [] => []
  | c :: rest =>
    if c == '"' then '\\' :: '"' :: escapeQuotes rest
    else c :: escapeQuotes rest

/-- String wrapper for `escapeQuotes`. -/
def escapeQuotesStr (s : String) : String :=
  String.mk (escapeQuotes s.data)

/-- `get_exec_command` (utils.rs 73-77): the exec-form entry-point
instruction. -/
def get_exec_command (command : String) : String :=
  "CMD [\"" ++ escapeQuotesStr command ++ "\"]"

/-- The inverse transform a re-parser applies to the exec-form payload:
leftmost, non-overlapping occurrences of backslash-quote collapse back to a
double quote. -/
def unescapeQuotes : List Char → List Char
  | '\\' :: '"' :: rest => '"' :: unescapeQuotes rest
  | c :: rest => c :: unescapeQuotes rest
  | [] => []

/-- String wrapper for `unescapeQuotes`. -/
def unescapeQuotesStr (s : String) : String :=
  String.mk (unescapeQuotes s.data)

/-! ## Dockerfile synthesis (src/nixpacks/builder/docker.rs, create_dockerfile) -/

/-- The application directory constant of docker.rs line 240. -/
def appDir : String := "/app/"

/-- Modelled from the spec: `app::ASSETS_DIR` (`src/nixpacks/app.rs` is not
among the examined files) — the reserved in-image asset destination prefix. -/
def ASSETS_DIR : String := "/assets/"

/-- `.nixpacks/environment.nix`, the relative path computed at docker.rs
235-238. -/
def environmentNixPath : String := ".nixpacks/environment.nix"

/-- docker.rs 250-254: the cache key actually used by the synthesizer — the
configured key, unless caching is disabled by `--no-cache` or by a truthy
`NIXPACKS_NO_CACHE` override. -/
def effectiveCacheKey (options : DockerBuilderOptions) (env : Environment) :
    Option String :=
  if !options.no_cache && !env.is_config_variable_truthy "NO_CACHE" then
    options.cache_key
  else none

/-- docker.rs 257-275: the ARG/ENV block for the plan's variables (empty when
there are none). -/
def argsString (vars : List (String × String)) : String :=
  if !vars.isEmpty then
    "ARG " ++ String.intercalate " " (vars.map (fun v => v.1)) ++ "\n" ++
    "ENV " ++ String.intercalate " " (vars.map (fun v => v.1 ++ "=$" ++ v.1))
  else ""

/-- docker.rs 330-335: the install phase's copy set — `only_include_files`,
else the full-tree default `["."]`. -/
def installFiles (install_phase : InstallPhase) : List String :=
  install_phase.only_include_files.getD ["."]

/-- docker.rs 348-355: the build phase's copy set — `only_include_files`,
else empty when the install phase already copied the whole tree, else the
full-tree default. -/
def buildFiles (install_phase : InstallPhase) (build_phase : BuildPhase) :
    List String :=
  build_phase.only_include_files.getD
    (if install_phase.only_include_files.isNone then [] else ["."])

/-- docker.rs 358-361: the start instruction — shell-form `CMD <cmd>`, or the
empty string when the Start phase has no command. -/
def startCmdString (start_phase : StartPhase) : String :=
  (start_phase.cmd.map (fun cmd => "CMD " ++ cmd)).getD ""

/-- docker.rs 366-386: the final-stage block — a second `FROM <run_image>`
stage (with the literal indentation of the non-dedenting `format!` at
369-379) when a run image is set, else an ordinary copy of the start files
(defaulting to the full tree). -/
def runImageSetup (start_phase : StartPhase) : String :=
  match start_phase.run_image with
  | some run_image =>
    "\n                FROM " ++ run_image ++
    "\n                WORKDIR " ++ appDir ++
    "\n                COPY --from=0 /etc/ssl/certs /etc/ssl/certs" ++
    "\n                RUN true" ++
    "\n                " ++
    get_copy_from_command "0" (start_phase.only_include_files.getD []) appDir ++
    "\n            "
  | none => get_copy_command (start_phase.only_include_files.getD ["."]) appDir

/-- `DockerBuilder::create_dockerfile` (docker.rs 234-424): the recipe text,
with the `formatdoc!` template of lines 388-418 written out dedented (common
indent 10; the whitespace-only lines become empty lines; the template keeps
its trailing newline). -/
def create_dockerfile (options : DockerBuilderOptions) (plan : BuildPlan)
    (env : Environment) : String :=
  let setup_phase := plan.setup.getD {}
  let install_phase := plan.install.getD {}
  let build_phase := plan.build.getD {}
  let start_phase := plan.start.getD {}
  let vars := plan.vars.getD []
  let static_assets := plan.static_assets.getD []
  let cache_key := effectiveCacheKey options env
  let args_string := argsString vars
  let setup_files := environmentNixPath :: setup_phase.only_include_files.getD []
  let setup_copy_cmd := "COPY " ++ String.intercalate " " setup_files ++ " " ++ appDir
  let apt_get_cmd :=
    if !(setup_phase.apt_pkgs.getD []).isEmpty then
      "RUN apt-get update && apt-get install -y " ++
        String.intercalate " " (setup_phase.apt_pkgs.getD [])
    else ""
  let setup_cmd :=
    String.intercalate "\n" ((setup_phase.cmds.getD []).map (fun c => "RUN " ++ c))
  let assets_copy_cmd :=
    if !static_assets.isEmpty then
      String.intercalate "\n" (static_assets.map (fun a =>
        "COPY assets/" ++ a.1 ++ " " ++ ASSETS_DIR ++ a.1))
    else ""
  let install_cache_mount := get_cache_mount cache_key install_phase.cache_directories
  let install_cmd :=
    String.intercalate "\n" ((install_phase.cmds.getD []).map (fun c =>
      "RUN " ++ install_cache_mount ++ " " ++ c))
  let path_env_pair :=
    match install_phase.paths with
    | some paths =>
      let joined_paths := String.intercalate ":" paths
      ("ENV PATH " ++ joined_paths ++ ":$PATH",
       "RUN printf '\\nPATH=" ++ joined_paths ++ ":$PATH' >> /root/.profile")
    | none => ("", "")
  let build_cache_mount := get_cache_mount cache_key build_phase.cache_directories
  let build_cmd :=
    String.intercalate "\n" ((build_phase.cmds.getD []).map (fun c =>
      "RUN " ++ build_cache_mount ++ " " ++ c))
  "FROM " ++ setup_phase.base_image ++ "\n" ++
  "\n" ++
  "WORKDIR " ++ appDir ++ "\n" ++
  "\n" ++
  "# Setup\n" ++
  setup_copy_cmd ++ "\n" ++
  "RUN nix-env -if environment.nix\n" ++
  apt_get_cmd ++ "\n" ++
  setup_cmd ++ "\n" ++
  "\n" ++
  assets_copy_cmd ++ "\n" ++
  "\n" ++
  "# Load environment variables\n" ++
  args_string ++ "\n" ++
  "\n" ++
  "# Install\n" ++
  get_copy_command (installFiles install_phase) appDir ++ "\n" ++
  install_cmd ++ "\n" ++
  "\n" ++
  path_env_pair.1 ++ "\n" ++
  path_env_pair.2 ++ "\n" ++
  "\n" ++
  "# Build\n" ++
  get_copy_command (buildFiles install_phase build_phase) appDir ++ "\n" ++
  build_cmd ++ "\n" ++
  "\n" ++
  "# Start\n" ++
  runImageSetup start_phase ++ "\n" ++
  startCmdString start_phase ++ "\n"

/-! ## The start-command gate (src/lib.rs, create_docker_image) -/

/-- `create_docker_image` (lib.rs 85-109) after plan generation: a Build Plan
whose start phase has no command is rejected with `No start command could be
found` unless the `no_error_without_start` override is set; otherwise the
builder proceeds and synthesizes the recipe (the builder's file-system I/O is
modelled separately, see `create_image`). -/
def create_docker_image (plan : BuildPlan) (options : DockerBuilderOptions)
    (env : Environment) : Except String String :=
  match plan.start with
  | some phase =>
    if phase.cmd.isNone && !options.no_error_without_start then
      Except.error "No start command could be found"
    else Except.ok (create_dockerfile options plan env)
  | none => Except.ok (create_dockerfile options plan env)

/-! ## The builder's file-system behaviour (DockerBuilder::create_image,
docker.rs 68-122), as an explicit effect trace -/

/-- One observable side effect of `create_image`: directory creation, console
output, copying the app tree, writing a file, or invoking the external build
engine. -/
inductive Effect where
  | createTempDir (prefixName : String)
  | createDirAll (path : String)
  | printLine (text : String)
  | copyDir (src dest : String)
  | writeFile (path : String)
  | invokeBuildEngine (name : String)
deriving DecidableEq

/-- The effect writes a file. -/
def Effect.isWriteFile : Effect → Bool
  | .writeFile _ => true
  | _ => false

/-- The effect copies the application tree into the build context. -/
def Effect.isCopyDir : Effect → Bool
  | .copyDir _ _ => true
  | _ => false

/-- The effect invokes the external build engine. -/
def Effect.isInvokeBuildEngine : Effect → Bool
  | .invokeBuildEngine _ => true
  | _ => false

/-- The effect creates a directory on disk (a fresh temp dir or mkdir -p). -/
def Effect.isCreateDir : Effect → Bool
  | .createTempDir _ => true
  | .createDirAll _ => true
  | _ => false

/-- The parent directory of a path (everything before the last `/`). -/
def parentDir (p : String) : String :=
  String.mk (((p.data.reverse.dropWhile (fun c => !(c == '/'))).drop 1).reverse)

/-- Modelled from the spec: `BuildPlan::get_build_string` (`src/nixpacks/plan.rs`
is not among the examined files) — the human-readable plan summary printed
before a build; its text decides none of the claims here. -/
def get_build_string (_plan : BuildPlan) : String := "<build plan summary>"

/-- The file-system facts `create_image` consults: the path a fresh temp
directory would get, and which directories already exist (the
`fs::metadata` probe of docker.rs line 33). -/
structure FsModel where
  tempDirPath : String
  dirExists : String → Bool

/-- `DockerBuilder::create_image` (docker.rs 68-122) as its trace of effects,
in program order: choose the output dir (creating a temp dir when `out_dir`
is unset), `OutputDir::new` (creating `<dir>/.nixpacks` when absent) — both
BEFORE the `print_dockerfile` check of line 84 — then either print the recipe
and stop, or print the plan, copy the app, write assets, recipe and nix
expression, and (without `out_dir`) invoke the build engine. The `v4` uuid is
the opaque argument `id`; the post-build console log lines are elided. -/
def create_image (options : DockerBuilderOptions) (id : String) (fsm : FsModel)
    (app_src : String) (plan : BuildPlan) (env : Environment) : List Effect :=
  let dir := options.out_dir.getD fsm.tempDirPath
  let temp_effects : List Effect :=
    match options.out_dir with
    | some _ => []
    | none => [.createTempDir "nixpacks"]
  let dot_nixpacks_dir := dir ++ "/.nixpacks"
  let output_dir_effects : List Effect :=
    if fsm.dirExists dot_nixpacks_dir then [] else [.createDirAll dot_nixpacks_dir]
  if options.print_dockerfile then
    temp_effects ++ output_dir_effects ++
      [.printLine (create_dockerfile options plan env)]
  else
    let assets := plan.static_assets.getD []
    let asset_effects : List Effect :=
      if !assets.isEmpty then
        .createDirAll (dir ++ "/assets") ::
          assets.flatMap (fun a =>
            [.createDirAll (parentDir (dir ++ "/assets/" ++ a.1)),
             .writeFile (dir ++ "/assets/" ++ a.1)])
      else []
    let name := options.name.getD id
    temp_effects ++ output_dir_effects ++
      [.printLine (get_build_string plan), .copyDir app_src dir] ++
      asset_effects ++
      [.writeFile (dot_nixpacks_dir ++ "/Dockerfile"),
       .writeFile (dot_nixpacks_dir ++ "/environment.nix")] ++
      (if options.out_dir.isNone then [.invokeBuildEngine name] else [])

/-! ## Helper lemmas -/

/-- A file whose content can be read is a file the tree includes. -/
theorem includes_file_of_read_file {app : App} {n c : String}
    (h : app.read_file n = some c) : app.includes_file n = true := by
  unfold App.read_file at h
  unfold App.includes_file
  cases hf : app.files.find? (fun f => f.1 == n) with
  | none => rw [hf] at h; simp at h
  | some x =>
    have hmem : x ∈ app.files := List.mem_of_find?_eq_some hf
    have hp := List.find?_some hf
    exact List.any_eq_true.mpr ⟨x, hmem, hp⟩

/-- Disabling conditions force the synthesizer's effective cache key to
`none`. -/
theorem effectiveCacheKey_eq_none {options : DockerBuilderOptions}
    {env : Environment}
    (h : options.cache_key = none ∨ options.no_cache = true ∨
      env.is_config_variable_truthy "NO_CACHE" = true) :
    effectiveCacheKey options env = none := by
  unfold effectiveCacheKey
  rcases h with h | h | h
  · split
    · exact h
    · rfl
  · simp [h]
  · simp [h]

/-- The version-to-package map hits `jdk11` exactly on the trimmed string
`"11"`. -/
theorem jdkPackageOfVersion_eq_jdk11_iff (v : String) :
    jdkPackageOfVersion v = Pkg.new "jdk11" ↔ rustTrim v = "11" := by
  constructor
  · intro h
    simp only [jdkPackageOfVersion] at h
    split at h
    · split at h
      · exact absurd h (by decide)
      · split at h
        · next h11 => exact eq_of_beq h11
        · exact absurd h (by decide)
    · exact absurd h (by decide)
  · intro h
    simp only [jdkPackageOfVersion, h]
    decide

/-- The version-to-package map only ever produces `jdk11` or the `jdk8`
default. -/
theorem jdkPackageOfVersion_dichotomy (v : String) :
    jdkPackageOfVersion v = Pkg.new "jdk11" ∨
    jdkPackageOfVersion v = Pkg.new "jdk8" := by
  simp only [jdkPackageOfVersion]
  split
  · split
    · exact Or.inr rfl
    · split
      · exact Or.inl rfl
      · exact Or.inr rfl
  · exact Or.inr rfl

/-! ## The claims -/

/-- C1: a Build Plan whose Start phase has no command makes
`create_docker_image` fail with the `No start command could be found` error
unless the explicit `no_error_without_start` override is set; with the
override, synthesis proceeds, the start instruction renders as the empty
string, and the emitted recipe contains no `CMD` instruction. -/
theorem no_start_command_gate_spec :
    (∀ (plan : BuildPlan) (options : DockerBuilderOptions) (env : Environment)
      (phase : StartPhase), plan.start = some phase → phase.cmd = none →
      options.no_error_without_start = false →
      create_docker_image plan options env =
        Except.error "No start command could be found")
    ∧ (∀ (plan : BuildPlan) (options : DockerBuilderOptions) (env : Environment)
      (phase : StartPhase), plan.start = some phase → phase.cmd = none →
      options.no_error_without_start = true →
      create_docker_image plan options env =
        Except.ok (create_dockerfile options plan env))
    ∧ (∀ phase : StartPhase, phase.cmd = none → startCmdString phase = "")
    ∧ containsSubstring
        (create_dockerfile { no_error_without_start := true }
          { start := some {} } ⟨[]⟩) "CMD" = false := by
  refine ⟨?_, ?_, ?_, by decide⟩
  · intro plan options env phase hstart hcmd hflag
    unfold create_docker_image
    rw [hstart]
    simp [hcmd, hflag]
  · intro plan options env phase hstart hcmd hflag
    unfold create_docker_image
    rw [hstart]
    simp [hflag]
  · intro phase h
    simp [startCmdString, h]

/-- C2: the documented cache-mount directive for `cache_key` with directories
`dir1`, `dir2` is emitted exactly (order-preserving, space-joined); without a
cache key — whether unset, disabled by `no_cache`, or disabled by a truthy
`NIXPACKS_NO_CACHE` override — no cache-mount directive is emitted for any
phase's directory list. -/
theorem cache_mount_generation_spec :
    get_cache_mount (some "cache_key") (some ["dir1", "dir2"]) =
      "--mount=type=cache,id=cache_key-dir1,target=dir1 --mount=type=cache,id=cache_key-dir2,target=dir2"
    ∧ (∀ dirs, get_cache_mount none dirs = "")
    ∧ (∀ (options : DockerBuilderOptions) (env : Environment),
      options.cache_key = none ∨ options.no_cache = true ∨
        env.is_config_variable_truthy "NO_CACHE" = true →
      ∀ dirs, get_cache_mount (effectiveCacheKey options env) dirs = "") := by
  refine ⟨by decide, fun dirs => rfl, fun options env h dirs => ?_⟩
  rw [effectiveCacheKey_eq_none h]
  rfl

/-- C3: the Clojure provider's JDK inference resolves by priority — the
`NIXPACKS_JDK_VERSION` override beats the `.jdk-version` file, which beats the
hard-coded `jdk8` default; a version file containing `11` yields the `jdk11`
package, no file and no override yields the default, and an unparsable version
string falls back to the default (the embedded function is total — no error is
ever raised). -/
theorem jdk_version_inference_spec :
    (∀ (app : App) (env : Environment) (v : String),
      env.get_config_variable "JDK_VERSION" = some v →
      get_nix_jdk_package app env = jdkPackageOfVersion v)
    ∧ (∀ (app : App) (env : Environment),
      env.get_config_variable "JDK_VERSION" = none →
      app.read_file ".jdk-version" = some "11" →
      get_nix_jdk_package app env = Pkg.new "jdk11")
    ∧ (∀ (app : App) (env : Environment),
      env.get_config_variable "JDK_VERSION" = none →
      app.includes_file ".jdk-version" = false →
      get_nix_jdk_package app env = Pkg.new DEFAULT_JDK_PKG_NAME)
    ∧ (∀ (app : App) (env : Environment) (v : String),
      resolvedJdkVersion app env = some v →
      matchesJdkVersionRegex (rustTrim v) = false →
      get_nix_jdk_package app env = Pkg.new DEFAULT_JDK_PKG_NAME)
    ∧ get_nix_jdk_package ⟨[(".jdk-version", "11\n")]⟩ ⟨[]⟩ = Pkg.new "jdk11"
    ∧ get_nix_jdk_package ⟨[]⟩ ⟨[]⟩ = Pkg.new DEFAULT_JDK_PKG_NAME
    ∧ get_nix_jdk_package ⟨[(".jdk-version", "8")]⟩
        ⟨[("NIXPACKS_JDK_VERSION", "11")]⟩ = Pkg.new "jdk11" := by
  refine ⟨?_, ?_, ?_, ?_, by decide, by decide, by decide⟩
  · intro app env v h
    simp [get_nix_jdk_package, resolvedJdkVersion, h]
  · intro app env hcfg hread
    have hres : resolvedJdkVersion app env = some "11" := by
      simp [resolvedJdkVersion, hcfg, includes_file_of_read_file hread, hread]
    unfold get_nix_jdk_package
    rw [hres]
    decide
  · intro app env hcfg hinc
    have hres : resolvedJdkVersion app env = none := by
      simp [resolvedJdkVersion, hcfg, hinc]
    unfold get_nix_jdk_package
    rw [hres]
  · intro app env v hres hregex
    unfold get_nix_jdk_package
    rw [hres]
    simp [jdkPackageOfVersion, hregex]

/-- C7: `get_copy_from_command` with the empty file list and stage `0` is
exactly `COPY --from=0 <app_dir> <app_dir>`; with files `a`, `b` it names both
files, space-joined, from the given stage, targeting the app directory. -/
theorem copy_from_command_spec :
    (∀ app_dir : String, get_copy_from_command "0" [] app_dir =
      "COPY --from=0 " ++ app_dir ++ " " ++ app_dir)
    ∧ (∀ frm app_dir : String, get_copy_from_command frm ["a", "b"] app_dir =
      "COPY --from=" ++ frm ++ " " ++ "a b" ++ " " ++ app_dir) := by
  exact ⟨fun app_dir => rfl, fun frm app_dir => rfl⟩

/-- C9: recipe synthesis is deterministic — structurally equal Build Plans,
builder options and environments give byte-identical recipe text (the
embedded synthesizer is a pure function of exactly these three inputs). -/
theorem dockerfile_synthesis_deterministic
    (p₁ p₂ : BuildPlan) (o₁ o₂ : DockerBuilderOptions) (e₁ e₂ : Environment)
    (hp : p₁ = p₂) (ho : o₁ = o₂) (he : e₁ = e₂) :
    create_dockerfile o₁ p₁ e₁ = create_dockerfile o₂ p₂ e₂ := by
  subst hp; subst ho; subst he; rfl

/-- C9 witness: the determinism theorem applied at a concrete plan, options
and environment. -/
theorem dockerfile_synthesis_deterministic_witness :
    create_dockerfile { cache_key := some "k" } { start := some {} } ⟨[]⟩ =
      create_dockerfile { cache_key := some "k" } { start := some {} } ⟨[]⟩ :=
  dockerfile_synthesis_deterministic _ _ _ _ _ _ rfl rfl rfl

/-- C10: the Clojure provider returns the `jdk11` package exactly when the
resolved version string (override, else `.jdk-version` content) trims to
`"11"`; every other outcome — other one-or-two-digit versions such as `9` or
`17`, non-digit strings, or no resolved version at all — yields the `jdk8`
default, and nothing but these two packages can be produced. -/
theorem clojure_jdk11_iff_spec :
    (∀ (app : App) (env : Environment),
      (get_nix_jdk_package app env = Pkg.new "jdk11" ↔
        ∃ v, resolvedJdkVersion app env = some v ∧ rustTrim v = "11")
      ∧ (get_nix_jdk_package app env = Pkg.new "jdk11" ∨
        get_nix_jdk_package app env = Pkg.new "jdk8"))
    ∧ get_nix_jdk_package ⟨[(".jdk-version", "9")]⟩ ⟨[]⟩ = Pkg.new "jdk8"
    ∧ get_nix_jdk_package ⟨[(".jdk-version", "17")]⟩ ⟨[]⟩ = Pkg.new "jdk8"
    ∧ get_nix_jdk_package ⟨[(".jdk-version", "eleven")]⟩ ⟨[]⟩ = Pkg.new "jdk8"
    ∧ get_nix_jdk_package ⟨[]⟩ ⟨[("NIXPACKS_JDK_VERSION", " 11 ")]⟩ =
        Pkg.new "jdk11" := by
  refine ⟨?_, by decide, by decide, by decide, by decide⟩
  intro app env
  cases hres : resolvedJdkVersion app env with
  | none =>
    unfold get_nix_jdk_package
    rw [hres]
    refine ⟨?_, Or.inr rfl⟩
    constructor
    · intro h; exact absurd h (by decide)
    · rintro ⟨v, hv, -⟩; simp at hv
  | some v =>
    unfold get_nix_jdk_package
    rw [hres]
    refine ⟨?_, jdkPackageOfVersion_dichotomy v⟩
    rw [jdkPackageOfVersion_eq_jdk11_iff]
    constructor
    · intro h; exact ⟨v, rfl, h⟩
    · rintro ⟨w, hw, ht⟩
      cases hw
      exact ht

/-- C4: on a tree with a `gradlew` wrapper, `build.gradle` and the wrapper
properties but NO `settings.gradle`, Gradle detection does fail terminally
(not a false/fall-through result), but the error message names
`build.gradle`/`build.gradle.kts` — which are present — and never the missing
`settings.gradle`, contradicting "the error message names the missing
file(s)". -/
theorem gradle_missing_settings_message_mismatch :
    is_gradle_app
      ⟨[("gradlew", ""), ("build.gradle", ""),
        ("gradle/wrapper/gradle-wrapper.properties", "")]⟩ =
      Except.error gradleBuildFileError
    ∧ containsSubstring gradleBuildFileError "settings.gradle" = false
    ∧ containsSubstring gradleBuildFileError "build.gradle" = true
    ∧ App.includes_file
      ⟨[("gradlew", ""), ("build.gradle", ""),
        ("gradle/wrapper/gradle-wrapper.properties", "")]⟩ "settings.gradle" =
      false := by
  refine ⟨by rfl, by decide, by decide, by decide⟩

/-- C5 counterexample: on a Build Plan in which neither the install nor the
build phase (nor the start phase) sets `only_include_files`, the synthesized
recipe contains the full-context copy line `COPY . /app/` twice — once at the
install phase and once again at the start phase — so it is not copied
"exactly once". -/
theorem full_tree_copy_emitted_twice :
    (splitLines (create_dockerfile {}
      { install := some {}, build := some {}, start := some {} } ⟨[]⟩)).count
      "COPY . /app/" = 2 := by decide

/-- C5 (amended): when neither install nor build restricts files, the install
phase emits the single full-tree copy and the build phase emits no copy
instruction; when install does restrict, the unrestricted build phase copies
the full tree itself; but the start phase — with no run image and no file
restriction of its own — unconditionally emits one more full-tree copy. -/
theorem copy_set_resolution_amended :
    (∀ (ip : InstallPhase) (bp : BuildPhase),
      ip.only_include_files = none → bp.only_include_files = none →
      installFiles ip = ["."] ∧ buildFiles ip bp = [] ∧
      get_copy_command (installFiles ip) appDir = "COPY . /app/" ∧
      get_copy_command (buildFiles ip bp) appDir = "")
    ∧ (∀ (ip : InstallPhase) (bp : BuildPhase) (files : List String),
      ip.only_include_files = some files → bp.only_include_files = none →
      buildFiles ip bp = ["."] ∧
      get_copy_command (buildFiles ip bp) appDir = "COPY . /app/")
    ∧ (∀ sp : StartPhase, sp.run_image = none → sp.only_include_files = none →
      runImageSetup sp = "COPY . /app/") := by
  refine ⟨?_, ?_, ?_⟩
  · intro ip bp hi hb
    have h1 : installFiles ip = ["."] := by simp [installFiles, hi]
    have h2 : buildFiles ip bp = [] := by simp [buildFiles, hi, hb]
    exact ⟨h1, h2, by rw [h1]; decide, by rw [h2]; rfl⟩
  · intro ip bp files hi hb
    have h2 : buildFiles ip bp = ["."] := by simp [buildFiles, hi, hb]
    exact ⟨h2, by rw [h2]; decide⟩
  · intro sp hr hf
    simp only [runImageSetup, hr, hf]
    decide

/-! ## Exec-form quoting: the escape transform and its inverse -/

/-- The default step of the unescape scanner: it copies the head character
whenever the head is not a backslash or the next character is not a double
quote. -/
theorem unescapeQuotes_cons_of_ne (c : Char) (es : List Char)
    (h : c ≠ '\\' ∨ es.head? ≠ some '"') :
    unescapeQuotes (c :: es) = c :: unescapeQuotes es := by
  conv_lhs => rw [unescapeQuotes.eq_def]
  split
  · rename_i heq
    injection heq with hc hes
    rcases h with h | h
    · exact absurd hc h
    · rw [hes] at h
      simp at h
  · rename_i heq
    injection heq with hc hes
    subst hc
    subst hes
    rfl
  · rename_i heq
    simp at heq

/-- The escape transform never emits a leading double quote. -/
theorem escapeQuotes_head_ne_quote (l : List Char) :
    (escapeQuotes l).head? ≠ some '"' := by
  cases l with
  | nil => simp [escapeQuotes]
  | cons c rest =>
    unfold escapeQuotes
    by_cases hc : c == '"'
    · simp [hc]
    · simp only [hc]
      simp only [Bool.false_eq_true, if_false, List.head?_cons, ne_eq,
        Option.some.injEq]
      intro hcq
      rw [hcq] at hc
      simp at hc

/-- Round trip: unescaping the escaped command recovers the command. -/
theorem unescapeQuotes_escapeQuotes (l : List Char) :
    unescapeQuotes (escapeQuotes l) = l := by
  induction l with
  | nil => rfl
  | cons c rest ih =>
    by_cases hc : c = '"'
    · subst hc
      show unescapeQuotes ('\\' :: '"' :: escapeQuotes rest) = '"' :: rest
      rw [show unescapeQuotes ('\\' :: '"' :: escapeQuotes rest) =
        '"' :: unescapeQuotes (escapeQuotes rest) from rfl, ih]
    · have he : escapeQuotes (c :: rest) = c :: escapeQuotes rest := by
        simp only [escapeQuotes]
        simp [hc]
      rw [he, unescapeQuotes_cons_of_ne c _
        (Or.inr (escapeQuotes_head_ne_quote rest)), ih]

/-- C6 counterexample: for the start command `command with -l "asdf"` the
synthesizer's start instruction (docker.rs 358-361) is the shell-form
`CMD command with -l "asdf"` — not an exec-form instruction, and not the
escaped exec-form `get_exec_command` would produce. -/
theorem start_instruction_not_exec_form :
    startCmdString { cmd := some "command with -l \"asdf\"" } =
      "CMD command with -l \"asdf\""
    ∧ strIsPrefixOf "CMD [\""
      (startCmdString { cmd := some "command with -l \"asdf\"" }) = false
    ∧ startCmdString { cmd := some "command with -l \"asdf\"" } ≠
      get_exec_command "command with -l \"asdf\"" := by
  refine ⟨by decide, by decide, by decide⟩

/-- C6 (amended): the exec-command helper `get_exec_command` renders any start
command as an exec-form instruction whose payload escapes every embedded
double quote, and unescaping the payload recovers the original command
unchanged (round-trip law); the documented example holds literally. The
Dockerfile synthesizer of docker.rs, however, renders the start command in
shell form `CMD <cmd>` without escaping. -/
theorem exec_command_quoting_roundtrip :
    (∀ command : String, get_exec_command command =
      "CMD [\"" ++ escapeQuotesStr command ++ "\"]")
    ∧ (∀ command : String, unescapeQuotesStr (escapeQuotesStr command) = command)
    ∧ get_exec_command "command with -l \"asdf\"" =
      "CMD [\"command with -l \\\"asdf\\\"\"]"
    ∧ (∀ (sp : StartPhase) (cmd : String), sp.cmd = some cmd →
      startCmdString sp = "CMD " ++ cmd) := by
  refine ⟨fun command => rfl, ?_, by decide, ?_⟩
  · intro command
    show String.mk (unescapeQuotes (String.mk (escapeQuotes command.data)).data) =
      command
    rw [show (String.mk (escapeQuotes command.data)).data =
      escapeQuotes command.data from rfl, unescapeQuotes_escapeQuotes]
  · intro sp cmd h
    simp [startCmdString, h]

/-- C8 (amended): with the print-recipe option set, `create_image` prints the
generated recipe text, writes no file, does not copy the app tree and does
not invoke the build engine — but the output directory probing happens first,
so directory-creation effects may still precede the print. -/
theorem print_dockerfile_effects (options : DockerBuilderOptions) (id : String)
    (fsm : FsModel) (app_src : String) (plan : BuildPlan) (env : Environment)
    (h : options.print_dockerfile = true) :
    Effect.printLine (create_dockerfile options plan env) ∈
      create_image options id fsm app_src plan env
    ∧ ∀ e ∈ create_image options id fsm app_src plan env,
      e.isWriteFile = false ∧ e.isCopyDir = false ∧
      e.isInvokeBuildEngine = false := by
  unfold create_image
  rw [h]
  simp only [if_true]
  cases options.out_dir with
  | none =>
    by_cases hd : fsm.dirExists ((fsm.tempDirPath : String) ++ "/.nixpacks")
    · constructor
      · simp [hd]
      · intro e he
        simp [hd] at he
        rcases he with he | he <;> subst he <;> exact ⟨rfl, rfl, rfl⟩
    · constructor
      · simp [hd]
      · intro e he
        simp [hd] at he
        rcases he with he | he | he <;> subst he <;> exact ⟨rfl, rfl, rfl⟩
  | some d =>
    by_cases hd : fsm.dirExists (d ++ "/.nixpacks")
    · constructor
      · simp [hd]
      · intro e he
        simp [hd] at he
        subst he
        exact ⟨rfl, rfl, rfl⟩
    · constructor
      · simp [hd]
      · intro e he
        simp [hd] at he
        rcases he with he | he <;> subst he <;> exact ⟨rfl, rfl, rfl⟩

/-- C8 witness: the amended effect theorem applied at a concrete option set,
file-system state and plan. -/
theorem print_dockerfile_effects_witness :
    Effect.printLine (create_dockerfile { print_dockerfile := true } {} ⟨[]⟩) ∈
      create_image { print_dockerfile := true } "id"
        ⟨"/tmp/nixpacks-t", fun _ => false⟩ "app" {} ⟨[]⟩
    ∧ ∀ e ∈ create_image { print_dockerfile := true } "id"
        ⟨"/tmp/nixpacks-t", fun _ => false⟩ "app" {} ⟨[]⟩,
      e.isWriteFile = false ∧ e.isCopyDir = false ∧
      e.isInvokeBuildEngine = false :=
  print_dockerfile_effects { print_dockerfile := true } "id"
    ⟨"/tmp/nixpacks-t", fun _ => false⟩ "app" {} ⟨[]⟩ rfl

/-- C8 counterexample: with the print-recipe option set and no out-dir, the
trace still begins by creating a fresh temporary directory and its
`.nixpacks` subdirectory on disk — so "no files and no directories are
created" fails. -/
theorem print_dockerfile_still_creates_dirs :
    create_image { print_dockerfile := true } "id"
      ⟨"/tmp/nixpacks-t", fun _ => false⟩ "app" {} ⟨[]⟩ =
      [Effect.createTempDir "nixpacks",
       Effect.createDirAll "/tmp/nixpacks-t/.nixpacks",
       Effect.printLine (create_dockerfile { print_dockerfile := true } {} ⟨[]⟩)]
    ∧ (Effect.createTempDir "nixpacks").isCreateDir = true
    ∧ (Effect.createDirAll "/tmp/nixpacks-t/.nixpacks").isCreateDir = true := by
  refine ⟨by rfl, rfl, rfl⟩

end Nixpacks
